import Mathlib

/-! Verification development for the web-update and deep-link logic of the
qt_play client (sources: `WebUpdates.hpp`, `MainWindow.cpp`,
`BitSharesApp.cpp`). Machine integers are modelled as `Nat`; the
`patchVersion` char is its character code; byte streams are lists of `Nat`. -/

/-- A manifest entry, `WebUpdateManifest::UpdateDetails` (WebUpdates.hpp).
The `std::unordered_set` of compact signatures is modelled as a list of
abstract signature tokens (its iteration order); `timestamp` is the
`fc::time_point_sec` value in seconds since epoch. -/
structure UpdateDetails where
  majorVersion : Nat
  forkVersion : Nat
  minorVersion : Nat
  patchVersion : Nat
  signatures : List Nat
  releaseNotes : String
  updatePackageUrl : String
  timestamp : Nat
deriving DecidableEq

/-- The default constructor of `UpdateDetails`: version 0.4.16 with patch
character 'a' (code 97); remaining fields default-initialized. -/
def UpdateDetails.mkDefault : UpdateDetails :=
  { majorVersion := 0, forkVersion := 4, minorVersion := 16, patchVersion := 97,
    signatures := [], releaseNotes := "", updatePackageUrl := "", timestamp := 0 }

/-- `UpdateDetails::operator<`: lexicographic comparison on
(majorVersion, forkVersion, minorVersion, patchVersion). -/
def UpdateDetails.lt (a b : UpdateDetails) : Bool :=
  if a.majorVersion ≠ b.majorVersion then decide (a.majorVersion < b.majorVersion)
  else if a.forkVersion ≠ b.forkVersion then decide (a.forkVersion < b.forkVersion)
  else if a.minorVersion ≠ b.minorVersion then decide (a.minorVersion < b.minorVersion)
  else decide (a.patchVersion < b.patchVersion)

/-- Abstract cryptographic and serialization primitives used by
`MainWindow::verifyUpdateSignature`: SHA-256 of a byte stream
(`fc::sha256::encoder`), JSON serialization of an entry
(`fc::json::to_string`), and address recovery from a compact signature and
a digest (`bts::blockchain::address(fc::ecc::public_key(sig, hash, false))`). -/
structure CryptoModel where
  sha256 : List Nat → Nat
  toJson : UpdateDetails → List Nat
  recover : Nat → Nat → Nat

/-- `UpdateDetails::signable_string`: copy the entry, clear its signature
set, and serialize the copy. -/
def signable_string (C : CryptoModel) (e : UpdateDetails) : List Nat :=
  C.toJson { e with signatures := [] }

/-- `WEB_UPDATES_SIGNATURE_REQUIREMENT` (WebUpdates.hpp). -/
def WEB_UPDATES_SIGNATURE_REQUIREMENT : Nat := 2

/-- The digest computed in `MainWindow::verifyUpdateSignature`: sha256 of
the package bytes followed by the entry's signable string. -/
def signableDigest (C : CryptoModel) (pkg : List Nat) (e : UpdateDetails) : Nat :=
  C.sha256 (pkg ++ signable_string C e)

/-- `MainWindow::verifyUpdateSignature`. `trustedKeys` stands for
`WEB_UPDATES_SIGNING_KEYS` (a constant set of four distinct addresses) and
`buildTimestamp` for `bts::utilities::git_revision_unix_timestamp`.
Mirrors the source: reject when the entry has fewer signatures than the
requirement (or the key set is smaller than the requirement); reject when
the entry's timestamp predates the build; otherwise erase from a copy of
the trusted key set the address recovered from each signature over the
signable digest, and accept iff at least the requirement many keys were
erased. -/
def verifyUpdateSignature (C : CryptoModel) (trustedKeys : Finset Nat)
    (buildTimestamp : Nat) (desc : UpdateDetails) (updatePackage : List Nat) : Bool :=
  if desc.signatures.length < WEB_UPDATES_SIGNATURE_REQUIREMENT
      ∨ trustedKeys.card < WEB_UPDATES_SIGNATURE_REQUIREMENT then false
  else if desc.timestamp < buildTimestamp then false
  else
    let hash := signableDigest C updatePackage desc
    let authorized_signers :=
      desc.signatures.foldl (fun acc s => acc.erase (C.recover s hash)) trustedKeys
    decide (WEB_UPDATES_SIGNATURE_REQUIREMENT ≤ trustedKeys.card - authorized_signers.card)

/-- The number of distinct addresses, recovered from the entry's signatures
over the signable digest, that belong to the trusted key set. -/
def distinctTrustedSigners (C : CryptoModel) (trustedKeys : Finset Nat)
    (desc : UpdateDetails) (pkg : List Nat) : Nat :=
  (trustedKeys ∩ (desc.signatures.map
      (fun s => C.recover s (signableDigest C pkg desc))).toFinset).card

lemma foldl_erase_eq (f : Nat → Nat) (l : List Nat) (S : Finset Nat) :
    l.foldl (fun acc s => acc.erase (f s)) S = S \ (l.map f).toFinset := by
  induction l generalizing S with
  | nil => simp
  | cons a l ih =>
      simp only [List.foldl_cons, List.map_cons, List.toFinset_cons, ih]
      ext x
      simp only [Finset.mem_sdiff, Finset.mem_erase, List.mem_toFinset,
        Finset.mem_insert]
      tauto

/-- A crypto model for concrete tests: recovery returns the signature token
itself, so signature token n stands for a signature by address n. -/
def exCrypto : CryptoModel :=
  { sha256 := fun _ => 0, toJson := fun _ => [], recover := fun s _ => s }

/-- A four-element stand-in for the trusted key set. -/
def exKeys : Finset Nat := {0, 1, 2, 3}

/-- An entry with two signatures recovering to two distinct trusted
addresses, timestamp 0. -/
def exDesc : UpdateDetails :=
  { UpdateDetails.mkDefault with signatures := [0, 1] }

/-- C1: the claim's unconditional iff fails on the code: an entry carrying
two signatures that recover to two distinct trusted addresses is
nevertheless rejected when its timestamp predates the build timestamp
(build timestamp 1, entry timestamp 0). -/
theorem C1_counterexample :
    verifyUpdateSignature exCrypto exKeys 1 exDesc [] = false ∧
    WEB_UPDATES_SIGNATURE_REQUIREMENT ≤ distinctTrustedSigners exCrypto exKeys exDesc [] := by
  constructor
  · rfl
  · decide

/-- C1 (amended): for an entry whose timestamp does not predate the build
timestamp, and a trusted key set at least as large as the signature
requirement (the fixed set has four keys, requirement 2), verification
authorizes the entry iff the number of distinct recovered addresses
belonging to the trusted key set reaches the requirement; in particular two
signatures recovering to the same trusted key contribute one address. -/
theorem C1_amended (C : CryptoModel) (trustedKeys : Finset Nat)
    (buildTimestamp : Nat) (desc : UpdateDetails) (pkg : List Nat)
    (hts : ¬ desc.timestamp < buildTimestamp)
    (hcard : WEB_UPDATES_SIGNATURE_REQUIREMENT ≤ trustedKeys.card) :
    verifyUpdateSignature C trustedKeys buildTimestamp desc pkg = true ↔
      WEB_UPDATES_SIGNATURE_REQUIREMENT ≤ distinctTrustedSigners C trustedKeys desc pkg := by
  unfold verifyUpdateSignature distinctTrustedSigners
  by_cases hlen : desc.signatures.length < WEB_UPDATES_SIGNATURE_REQUIREMENT
  · rw [if_pos (Or.inl hlen)]
    have h1 : (trustedKeys ∩ (desc.signatures.map
        (fun s => C.recover s (signableDigest C pkg desc))).toFinset).card ≤
        desc.signatures.length := by
      have ha : (trustedKeys ∩ (desc.signatures.map
          (fun s => C.recover s (signableDigest C pkg desc))).toFinset).card ≤
          ((desc.signatures.map
            (fun s => C.recover s (signableDigest C pkg desc))).toFinset).card :=
        Finset.card_le_card Finset.inter_subset_right
      have hb := List.toFinset_card_le (desc.signatures.map
        (fun s => C.recover s (signableDigest C pkg desc)))
      rw [List.length_map] at hb
      omega
    simp only [Bool.false_eq_true, false_iff]
    intro h
    omega
  · rw [if_neg (not_or.mpr ⟨hlen, not_lt.mpr hcard⟩), if_neg hts]
    simp only [foldl_erase_eq, decide_eq_true_eq]
    have h2 := Finset.card_sdiff_add_card_inter trustedKeys
      (desc.signatures.map
        (fun s => C.recover s (signableDigest C pkg desc))).toFinset
    omega

/-- Witness for C1 (amended): at the concrete entry with two distinct
trusted signers and a non-rollback timestamp, verification accepts. -/
theorem C1_amended_witness :
    verifyUpdateSignature exCrypto exKeys 0 exDesc [] = true := by
  have h := C1_amended exCrypto exKeys 0 exDesc [] (by decide) (by decide)
  exact h.mpr (by decide)

/-- An entry differing from `exDesc` only in its signature set. -/
def exDescSig : UpdateDetails :=
  { UpdateDetails.mkDefault with signatures := [7] }

/-- C2: the signable string clears the signature set before serializing, so
two entries that differ only in their signature sets have the same signable
string, and hence the same signed digest (sha256 of package bytes followed
by signable string) for every downloaded package. -/
theorem C2_signable_excludes_signatures (C : CryptoModel) (e1 e2 : UpdateDetails)
    (hmaj : e1.majorVersion = e2.majorVersion)
    (hfork : e1.forkVersion = e2.forkVersion)
    (hmin : e1.minorVersion = e2.minorVersion)
    (hpatch : e1.patchVersion = e2.patchVersion)
    (hnotes : e1.releaseNotes = e2.releaseNotes)
    (hurl : e1.updatePackageUrl = e2.updatePackageUrl)
    (hts : e1.timestamp = e2.timestamp) :
    signable_string C e1 = signable_string C e2 ∧
      ∀ pkg : List Nat, signableDigest C pkg e1 = signableDigest C pkg e2 := by
  have h : signable_string C e1 = signable_string C e2 := by
    unfold signable_string
    cases e1
    cases e2
    simp_all
  refine ⟨h, fun pkg => ?_⟩
  unfold signableDigest
  rw [h]

/-- Witness for C2 at two concrete entries differing only in signatures. -/
theorem C2_witness :
    signable_string exCrypto exDesc = signable_string exCrypto exDescSig ∧
      ∀ pkg : List Nat,
        signableDigest exCrypto pkg exDesc = signableDigest exCrypto pkg exDescSig :=
  C2_signable_excludes_signatures exCrypto exDesc exDescSig rfl rfl rfl rfl rfl rfl rfl

/-- C3: an entry whose timestamp is strictly earlier than the build's
release timestamp is rejected by `verifyUpdateSignature`, regardless of its
signatures. -/
theorem C3_anti_rollback (C : CryptoModel) (trustedKeys : Finset Nat)
    (buildTimestamp : Nat) (desc : UpdateDetails) (pkg : List Nat)
    (h : desc.timestamp < buildTimestamp) :
    verifyUpdateSignature C trustedKeys buildTimestamp desc pkg = false := by
  unfold verifyUpdateSignature
  by_cases h1 : desc.signatures.length < WEB_UPDATES_SIGNATURE_REQUIREMENT
      ∨ trustedKeys.card < WEB_UPDATES_SIGNATURE_REQUIREMENT
  · rw [if_pos h1]
  · rw [if_neg h1, if_pos h]

/-- Witness for C3: the concrete two-trusted-signer entry with timestamp 0
is rejected against build timestamp 1. -/
theorem C3_witness :
    verifyUpdateSignature exCrypto exKeys 1 exDesc [] = false :=
  C3_anti_rollback exCrypto exKeys 1 exDesc [] (by decide)

/-- The running client's version fields. Modelled from the spec: the fields
`_majorVersion`, `_forkVersion`, `_minorVersion`, `_patchVersion` are
declared in `MainWindow.hpp`, which is not among the sources; the spec
describes them as an update identifier (major, fork, minor: unsigned byte;
patch: single character, compared by character code). -/
structure CurrentVersion where
  major : Nat
  fork : Nat
  minor : Nat
  patch : Nat
deriving DecidableEq

/-- The probe entry built in `MainWindow::checkWebUpdates`: default
constructed, then major and fork set to the current values and minor set to
the current minor plus one; the patch character stays at the constructor
default 'a' (97). The probe's fields are `uint8_t`, so each assignment from
the client's wider version field truncates mod 256; in particular
`update.minorVersion = _minorVersion + 1` wraps 255 to 0. -/
def probeFor (cur : CurrentVersion) : UpdateDetails :=
  { UpdateDetails.mkDefault with
      majorVersion := cur.major % 256, forkVersion := cur.fork % 256,
      minorVersion := (cur.minor + 1) % 256 }

/-- `std::set::lower_bound` on the ascending manifest list: the index of
the first entry that is not less than the probe (the length when there is
none, matching the end iterator). -/
def lowerBoundIdx (manifest : List UpdateDetails) (probe : UpdateDetails) : Nat :=
  manifest.findIdx (fun e => ! e.lt probe)

/-- The update selection of `MainWindow::checkWebUpdates`: build the probe,
take the lower bound in the manifest; if it is the first position, no
update; otherwise step back one position (from past-the-end when no entry
reaches the probe) and reject the candidate unless its major, fork and
minor equal the current ones, its patch is strictly greater, and its
signature set has at least `WEB_UPDATES_SIGNATURE_REQUIREMENT` elements. -/
def checkWebUpdatesSelect (cur : CurrentVersion) (manifest : List UpdateDetails) :
    Option UpdateDetails :=
  let i := lowerBoundIdx manifest (probeFor cur)
  if i = 0 then none
  else
    match manifest.get? (i - 1) with
    | none => none
    | some u =>
        if u.majorVersion ≠ cur.major ∨ u.forkVersion ≠ cur.fork
            ∨ u.minorVersion ≠ cur.minor ∨ u.patchVersion ≤ cur.patch
            ∨ u.signatures.length < WEB_UPDATES_SIGNATURE_REQUIREMENT then none
        else some u

/-- The probe identifier as C4 words it: (major, fork, minor+1, minimum
patch character 'a'), with the unbounded minor+1 of the claim's words
rather than the source's byte truncation. -/
def probeSpecC4 (cur : CurrentVersion) : UpdateDetails :=
  { UpdateDetails.mkDefault with
      majorVersion := cur.major, forkVersion := cur.fork,
      minorVersion := cur.minor + 1 }

/-- The selector as C4 words it: probe at (major, fork, minor+1, minimum
patch character 'a'); if no manifest entry is greater than or equal to the
probe, or the first such entry is the first element, return no update;
otherwise step back one position and return that entry iff its major, fork
and minor equal the current ones, its patch is strictly greater than the
current patch, and its signature set has at least the requirement many
elements. -/
def selectorSpecC4 (cur : CurrentVersion) (manifest : List UpdateDetails) :
    Option UpdateDetails :=
  let i := lowerBoundIdx manifest (probeSpecC4 cur)
  if i = manifest.length then none
  else if i = 0 then none
  else
    match manifest.get? (i - 1) with
    | none => none
    | some u =>
        if u.majorVersion = cur.major ∧ u.forkVersion = cur.fork
            ∧ u.minorVersion = cur.minor ∧ cur.patch < u.patchVersion
            ∧ WEB_UPDATES_SIGNATURE_REQUIREMENT ≤ u.signatures.length
        then some u else none

/-- C4 as amended: like `selectorSpecC4` but with the source's probe
(`probeFor`, whose uint8 fields truncate mod 256, wrapping minor 255 to 0)
and without the "if there is none" early exit — when no entry reaches the
probe the code steps back from past-the-end to the last entry. -/
def selectorSpecC4Amended (cur : CurrentVersion) (manifest : List UpdateDetails) :
    Option UpdateDetails :=
  let i := lowerBoundIdx manifest (probeFor cur)
  if i = 0 then none
  else
    match manifest.get? (i - 1) with
    | none => none
    | some u =>
        if u.majorVersion = cur.major ∧ u.forkVersion = cur.fork
            ∧ u.minorVersion = cur.minor ∧ cur.patch < u.patchVersion
            ∧ WEB_UPDATES_SIGNATURE_REQUIREMENT ≤ u.signatures.length
        then some u else none

/-- Current version 0.4.16-a. -/
def curA : CurrentVersion := { major := 0, fork := 4, minor := 16, patch := 97 }

/-- A two-signature entry at version (0,4,16,'b'). -/
def entry16b : UpdateDetails :=
  { UpdateDetails.mkDefault with patchVersion := 98, signatures := [0, 1] }

/-- C4: the claim's algorithm and the code disagree: for current version
(0,4,16,'a') and the one-entry manifest [(0,4,16,'b') with two signatures],
no manifest entry reaches the probe (0,4,17,'a'), so the claim returns no
update, but the code steps back from past-the-end and returns the entry. -/
theorem C4_counterexample :
    checkWebUpdatesSelect curA [entry16b] = some entry16b ∧
    selectorSpecC4 curA [entry16b] = none := by
  constructor
  · rfl
  · rfl

/-- C4 (amended): the code's selector agrees everywhere with the claim's
algorithm once the probe carries the source's byte-truncated fields (minor
is (minor+1) mod 256, wrapping 255 to 0) and the "no entry reaches the
probe" case also steps back one position (to the last entry) instead of
returning no update. -/
theorem C4_amended_selector (cur : CurrentVersion) (manifest : List UpdateDetails) :
    checkWebUpdatesSelect cur manifest = selectorSpecC4Amended cur manifest := by
  unfold checkWebUpdatesSelect selectorSpecC4Amended
  by_cases h0 : lowerBoundIdx manifest (probeFor cur) = 0
  · rw [if_pos h0, if_pos h0]
  · rw [if_neg h0, if_neg h0]
    cases hu : manifest.get? (lowerBoundIdx manifest (probeFor cur) - 1) with
    | none => rfl
    | some u =>
        show (if u.majorVersion ≠ cur.major ∨ u.forkVersion ≠ cur.fork
            ∨ u.minorVersion ≠ cur.minor ∨ u.patchVersion ≤ cur.patch
            ∨ u.signatures.length < WEB_UPDATES_SIGNATURE_REQUIREMENT then none
          else some u)
          = (if u.majorVersion = cur.major ∧ u.forkVersion = cur.fork
            ∧ u.minorVersion = cur.minor ∧ cur.patch < u.patchVersion
            ∧ WEB_UPDATES_SIGNATURE_REQUIREMENT ≤ u.signatures.length
          then some u else none)
        by_cases hc : u.majorVersion = cur.major ∧ u.forkVersion = cur.fork
            ∧ u.minorVersion = cur.minor ∧ cur.patch < u.patchVersion
            ∧ WEB_UPDATES_SIGNATURE_REQUIREMENT ≤ u.signatures.length
        · rw [if_pos hc, if_neg]
          push_neg
          obtain ⟨h1, h2, h3, h4, h5⟩ := hc
          exact ⟨h1, h2, h3, h4, h5⟩
        · rw [if_neg hc, if_pos]
          by_contra hnc
          push_neg at hnc
          obtain ⟨h1, h2, h3, h4, h5⟩ := hnc
          exact hc ⟨h1, h2, h3, by omega, by omega⟩

/-- At current minor 255 the probe's uint8 minor wraps to 0, and the
selector consequently returns no update on a manifest holding
(0,4,255,'b') with two signatures — the lower bound is the first position
— matching the program's byte arithmetic. -/
lemma selector_wrap_at_minor_255 :
    (probeFor { major := 0, fork := 4, minor := 255, patch := 97 }).minorVersion = 0 ∧
    checkWebUpdatesSelect { major := 0, fork := 4, minor := 255, patch := 97 }
      [{ UpdateDetails.mkDefault with
          minorVersion := 255, patchVersion := 98, signatures := [0, 1] }] = none := by
  constructor
  · rfl
  · rfl

/-- Manifest entries for the C5 scenarios, each carrying two signatures. -/
def entry16a : UpdateDetails :=
  { UpdateDetails.mkDefault with signatures := [0, 1] }

/-- Version (0,4,17,'b') with two signatures. -/
def entry17b : UpdateDetails :=
  { UpdateDetails.mkDefault with
      minorVersion := 17, patchVersion := 98, signatures := [0, 1] }

/-- Version (0,5,0,'a') with two signatures. -/
def entry050a : UpdateDetails :=
  { UpdateDetails.mkDefault with
      forkVersion := 5, minorVersion := 0, signatures := [0, 1] }

/-- C5: the claimed first scenario fails on the code: for current version
(0,4,16,'a') and the manifest [(0,4,16,'a'), (0,4,17,'b')], the selector
steps back to (0,4,16,'a'), whose patch is not greater than the current
patch, and returns no update rather than (0,4,17,'b'). -/
theorem C5_counterexample :
    checkWebUpdatesSelect curA [entry16a, entry17b] = none := by
  rfl

/-- C5 (amended): both scenarios yield no update: a (0,4,17,'b') entry is a
minor-version bump, outside the patch-only update channel, and a
(0,5,0,'a') entry is a fork bump. -/
theorem C5_amended_scenarios :
    checkWebUpdatesSelect curA [entry16a, entry17b] = none ∧
    checkWebUpdatesSelect curA [entry16a, entry050a] = none := by
  constructor
  · rfl
  · rfl

/-- On-disk update bundle state: the parsed JSON descriptor `web.json` and
the binary payload `web.dat` in the client's data directory, each present
or absent. -/
structure DiskState where
  webJson : Option UpdateDetails
  webDat : Option (List Nat)
deriving DecidableEq

/-- The client state the update pipeline acts on: the two on-disk files,
the in-memory web package map (`ClientWrapper::set_web_package`), whether a
client with an open wallet exists, whether that wallet is locked, whether
the web view was reloaded, and the running patch version. -/
structure AppState where
  disk : DiskState
  webPackage : List (String × List Nat)
  walletExists : Bool
  walletLocked : Bool
  viewReloaded : Bool
  patchVersion : Nat
deriving DecidableEq

/-- The split-state purge at the start of `MainWindow::checkWebUpdates`
(before any network request): when exactly one of web.json and web.dat
exists, remove whichever exists. -/
def purgeSplitState (d : DiskState) : DiskState :=
  if Bool.xor d.webJson.isSome d.webDat.isSome then
    let d1 := if d.webJson.isSome then { d with webJson := none } else d
    if d1.webDat.isSome then { d1 with webDat := none } else d1
  else d

/-- The package branch of the download callback in
`MainWindow::checkWebUpdates`: verify the signature of the downloaded bytes
against the selected entry; on failure only an alert may be shown and
nothing is written; if the user declines the dialog nothing is written;
otherwise write the payload web.dat and then the descriptor web.json
(`loadWebUpdates` is then queued). -/
def checkWebUpdatesPackageStep (C : CryptoModel) (trustedKeys : Finset Nat)
    (buildTimestamp : Nat) (desc : UpdateDetails) (package : List Nat)
    (userAccepts : Bool) (st : AppState) : AppState :=
  if verifyUpdateSignature C trustedKeys buildTimestamp desc package = false then st
  else if userAccepts = false then st
  else { st with disk := { webJson := some desc, webDat := some package } }

/-- `MainWindow::loadWebUpdates` (the startup/installation load path):
return unchanged if either file is missing; read the descriptor and the
payload; if signature verification fails, remove both files; decompress
(`fc::lzma_decompress`) and deserialize (`fc::raw::unpack`), returning
unchanged on either failure; on success lock the wallet when one is open,
install the package map, reload the view, and adopt the entry's patch
version. The decompressor and deserializer are abstract, returning `none`
on a corrupt input. -/
def loadWebUpdates (C : CryptoModel) (trustedKeys : Finset Nat) (buildTimestamp : Nat)
    (lzma_decompress : List Nat → Option (List Nat))
    (unpack : List Nat → Option (List (String × List Nat)))
    (st : AppState) : AppState :=
  match st.disk.webJson with
  | none => st
  | some desc =>
    match st.disk.webDat with
    | none => st
    | some updatePackage =>
      if verifyUpdateSignature C trustedKeys buildTimestamp desc updatePackage = false then
        { st with disk := { webJson := none, webDat := none } }
      else
        match lzma_decompress updatePackage with
        | none => st
        | some decompressedStream =>
          match unpack decompressedStream with
          | none => st
          | some deserializedPackage =>
            let st1 := if st.walletExists then { st with walletLocked := true } else st
            { st1 with
                webPackage := deserializedPackage, viewReloaded := true,
                patchVersion := desc.patchVersion }

/-- `MainWindow::removeWebUpdates`: when the user confirms, remove both
files, clear the in-memory web package, lock the wallet and reload the
view; otherwise do nothing. -/
def removeWebUpdates (userConfirms : Bool) (st : AppState) : AppState :=
  if userConfirms then
    { st with
        disk := { webJson := none, webDat := none }, webPackage := [],
        walletLocked := true, viewReloaded := true }
  else st

/-- A state holding only the descriptor file. -/
def exState6 : AppState :=
  { disk := { webJson := some exDesc, webDat := none }, webPackage := [],
    walletExists := true, walletLocked := false, viewReloaded := false,
    patchVersion := 97 }

/-- A state holding only the payload file. -/
def exState6b : AppState :=
  { disk := { webJson := none, webDat := some [1] }, webPackage := [],
    walletExists := true, walletLocked := false, viewReloaded := false,
    patchVersion := 97 }

/-- C6: the claimed startup purge fails on the code: with only the
descriptor present, `loadWebUpdates` returns with the state unchanged - the
descriptor is still on disk, not deleted. -/
theorem C6_counterexample :
    loadWebUpdates exCrypto exKeys 0 (fun _ => none) (fun _ => none) exState6 = exState6 ∧
    (loadWebUpdates exCrypto exKeys 0 (fun _ => none) (fun _ => none) exState6).disk.webJson
      = some exDesc := by
  constructor
  · rfl
  · rfl

/-- C6 (amended): when exactly one of the two files exists, the startup
loader proceeds with no active bundle but deletes nothing; the purge of the
split state is performed by the update-check path (`checkWebUpdates`),
which removes whichever file is present. -/
theorem C6_amended_load (C : CryptoModel) (trustedKeys : Finset Nat)
    (buildTimestamp : Nat) (lzma_decompress : List Nat → Option (List Nat))
    (unpack : List Nat → Option (List (String × List Nat))) (st : AppState)
    (h : Bool.xor st.disk.webJson.isSome st.disk.webDat.isSome = true) :
    loadWebUpdates C trustedKeys buildTimestamp lzma_decompress unpack st = st ∧
    purgeSplitState st.disk = { webJson := none, webDat := none } := by
  obtain ⟨⟨j, d⟩, pkg, we, wl, vr, pv⟩ := st
  cases j <;> cases d <;> simp_all [loadWebUpdates, purgeSplitState]

/-- Witness for C6 (amended) at the payload-only state. -/
theorem C6_amended_witness :
    loadWebUpdates exCrypto exKeys 0 (fun _ => none) (fun _ => none) exState6b = exState6b ∧
    purgeSplitState exState6b.disk = { webJson := none, webDat := none } :=
  C6_amended_load exCrypto exKeys 0 (fun _ => none) (fun _ => none) exState6b (by decide)

/-- A state with both files present, an installed bundle in memory, whose
descriptor (a single signature) fails verification. -/
def exState7 : AppState :=
  { disk := { webJson := some exDescSig, webDat := some [1, 2, 3] },
    webPackage := [("index.html", [5])], walletExists := true, walletLocked := false,
    viewReloaded := false, patchVersion := 97 }

/-- C7: "every verification failure purges no persisted state" fails on the
code: a signature verification failure on the load path deletes both
on-disk files of the previously installed bundle. -/
theorem C7_counterexample :
    verifyUpdateSignature exCrypto exKeys 0 exDescSig [1, 2, 3] = false ∧
    loadWebUpdates exCrypto exKeys 0 (fun _ => none) (fun _ => none) exState7 =
      { exState7 with disk := { webJson := none, webDat := none } } := by
  constructor
  · rfl
  · rfl

/-- C7 (amended): a corrupt compressed stream makes the load step abort
with no state change at all - but only after the download step has already
written both package files, which a download-path verification failure
never does; a verification failure on the load path instead purges both
package files. -/
theorem C7_amended_failures (C : CryptoModel) (trustedKeys : Finset Nat)
    (buildTimestamp : Nat) (lzma_decompress : List Nat → Option (List Nat))
    (unpack : List Nat → Option (List (String × List Nat))) :
    (∀ (st : AppState) (desc : UpdateDetails) (pkg : List Nat),
        st.disk = { webJson := some desc, webDat := some pkg } →
        verifyUpdateSignature C trustedKeys buildTimestamp desc pkg = true →
        lzma_decompress pkg = none →
        loadWebUpdates C trustedKeys buildTimestamp lzma_decompress unpack st = st)
    ∧ (∀ (st : AppState) (desc : UpdateDetails) (package : List Nat) (userAccepts : Bool),
        verifyUpdateSignature C trustedKeys buildTimestamp desc package = false →
        checkWebUpdatesPackageStep C trustedKeys buildTimestamp desc package userAccepts st
          = st)
    ∧ (∀ (st : AppState) (desc : UpdateDetails) (pkg : List Nat),
        st.disk = { webJson := some desc, webDat := some pkg } →
        verifyUpdateSignature C trustedKeys buildTimestamp desc pkg = false →
        loadWebUpdates C trustedKeys buildTimestamp lzma_decompress unpack st =
          { st with disk := { webJson := none, webDat := none } }) := by
  refine ⟨?_, ?_, ?_⟩
  · intro st desc pkg hdisk hverify hdec
    simp [loadWebUpdates, hdisk, hverify, hdec]
  · intro st desc package userAccepts hverify
    simp [checkWebUpdatesPackageStep, hverify]
  · intro st desc pkg hdisk hverify
    simp [loadWebUpdates, hdisk, hverify]

/-- A state with both files present whose descriptor verifies. -/
def exState71 : AppState :=
  { disk := { webJson := some exDesc, webDat := some [] }, webPackage := [],
    walletExists := true, walletLocked := false, viewReloaded := false,
    patchVersion := 97 }

/-- Witness for C7 (amended): a corrupt stream (decompressor yielding none)
leaves the verified state untouched. -/
theorem C7_amended_witness :
    loadWebUpdates exCrypto exKeys 0 (fun _ => none) (fun _ => none) exState71 = exState71 :=
  (C7_amended_failures exCrypto exKeys 0 (fun _ => none) (fun _ => none)).1
    exState71 exDesc [] rfl (by decide) rfl

/-- C10: installing a web update bundle (the successful load path, when a
client with an open wallet exists) and removing the installed bundle (after
user confirmation) each lock the wallet, in addition to swapping the
in-memory bundle and reloading the view; so after every install or removal
the wallet is in the locked state. -/
theorem C10_lock_on_install_and_remove (C : CryptoModel) (trustedKeys : Finset Nat)
    (buildTimestamp : Nat) (lzma_decompress : List Nat → Option (List Nat))
    (unpack : List Nat → Option (List (String × List Nat))) :
    (∀ (st : AppState) (desc : UpdateDetails) (pkg stream : List Nat)
        (files : List (String × List Nat)),
        st.walletExists = true →
        st.disk = { webJson := some desc, webDat := some pkg } →
        verifyUpdateSignature C trustedKeys buildTimestamp desc pkg = true →
        lzma_decompress pkg = some stream →
        unpack stream = some files →
        loadWebUpdates C trustedKeys buildTimestamp lzma_decompress unpack st =
          { st with
              walletLocked := true, webPackage := files, viewReloaded := true,
              patchVersion := desc.patchVersion })
    ∧ (∀ st : AppState,
        removeWebUpdates true st =
          { st with
              disk := { webJson := none, webDat := none }, webPackage := [],
              walletLocked := true, viewReloaded := true }) := by
  constructor
  · intro st desc pkg stream files hwallet hdisk hverify hdec hunp
    simp [loadWebUpdates, hdisk, hverify, hdec, hunp, hwallet]
  · intro st
    simp [removeWebUpdates]

/-- A both-files state with an open, unlocked wallet. -/
def exState10 : AppState :=
  { disk := { webJson := some exDesc, webDat := some [] }, webPackage := [],
    walletExists := true, walletLocked := false, viewReloaded := false,
    patchVersion := 97 }

/-- Witness for C10: at a concrete verified state, a successful install and
a confirmed removal each leave the wallet locked. -/
theorem C10_witness :
    (loadWebUpdates exCrypto exKeys 0 (fun _ => some [])
        (fun _ => some [("index.html", [1])]) exState10).walletLocked = true ∧
    (removeWebUpdates true exState10).walletLocked = true := by
  constructor
  · rw [(C10_lock_on_install_and_remove exCrypto exKeys 0 (fun _ => some [])
        (fun _ => some [("index.html", [1])])).1 exState10 exDesc [] []
        [("index.html", [1])] rfl rfl (by decide) rfl rfl]
  · rw [(C10_lock_on_install_and_remove exCrypto exKeys 0 (fun _ => some [])
        (fun _ => some [("index.html", [1])])).2 exState10]

/-- The two user-visible warning dialogs of `MainWindow::processCustomUrl`. -/
inductive UrlWarning where
  | invalidUrl
  | invalidBlockNumber
deriving DecidableEq

/-- The observable outcome of one `processCustomUrl` call: which warning
dialog was shown, which URL was loaded into the web view, and which
component list was dispatched to `MainWindow::doLogin`. The `login` field
exists so the routing claims can be stated; no branch of the source's
`processCustomUrl` calls `doLogin`, so no branch of the embedding fills it. -/
structure UrlResult where
  warning : Option UrlWarning
  loaded : Option (List Char)
  login : Option (List (List Char))
deriving DecidableEq

/-- The no-op outcome: no dialog, no navigation, no dispatch. -/
def noUrlResult : UrlResult := { warning := none, loaded := none, login := none }

/-- Modelled from the spec: `CUSTOM_URL_SCHEME` is defined in a header that
is not among the sources; the spec's deep-link examples use the scheme
`xts`. -/
def CUSTOM_URL_SCHEME : List Char := ['x', 't', 's']

/-- `QString::toLower` on a character list. -/
def toLowerStr (s : List Char) : List Char := s.map Char.toLower

def splitOnSlashAux : List Char → List Char → List (List Char)
  | [], acc => [acc.reverse]
  | c :: rest, acc =>
      if c = '/' then acc.reverse :: splitOnSlashAux rest []
      else splitOnSlashAux rest (c :: acc)

/-- Split a character list on '/'. -/
def splitOnSlash (l : List Char) : List (List Char) := splitOnSlashAux l []

/-- The component extraction of `processCustomUrl`: take the text after the
first ':' (the whole string when there is none, as `QString::mid(0)`),
strip leading '/' characters, and split on '/' skipping empty parts. -/
def urlComponents (url : List Char) : List (List Char) :=
  let rest := if url.contains ':' then (url.dropWhile (fun c => c ≠ ':')).drop 1 else url
  let rest2 := rest.dropWhile (fun c => c = '/')
  (splitOnSlash rest2).filter (fun c => c ≠ [])

/-- The dispatch of `MainWindow::processCustomUrl` on the split component
list: empty components warn "Invalid URL"; a first component (lowercased)
among home, delegates, notes, directory, newcontact, preferences, console,
help navigates to that panel; accounts and blocks take an optional second
component (three or more components fall through and load the bare base
URL, and a non-numeric block number warns and also loads the bare base
URL); anything else returns with no effect. `endpoint` is the local httpd
endpoint, `parseBlockNum` is `QString::toInt`, `showNat` is
`QString::number`. -/
def dispatchComponents (endpoint : List Char) (parseBlockNum : List Char → Option Nat)
    (showNat : Nat → List Char) (components : List (List Char)) : UrlResult :=
  match components with
  | [] => { warning := some UrlWarning.invalidUrl, loaded := none, login := none }
  | c0 :: _ =>
      let urlBase := "http://".toList ++ endpoint ++ "/#".toList
      let str := toLowerStr c0
      if str = "home".toList ∨ str = "delegates".toList ∨ str = "notes".toList
          ∨ str = "directory".toList ∨ str = "newcontact".toList
          ∨ str = "preferences".toList ∨ str = "console".toList
          ∨ str = "help".toList then
        { warning := none, loaded := some (urlBase ++ '/' :: str), login := none }
      else if str = "accounts".toList then
        if components.length = 1 then
          { warning := none, loaded := some (urlBase ++ "/accounts".toList), login := none }
        else if components.length = 2 then
          { warning := none,
            loaded := some (urlBase ++ "/accounts/".toList ++ components.getD 1 []),
            login := none }
        else { warning := none, loaded := some urlBase, login := none }
      else if str = "blocks".toList then
        if components.length = 1 then
          { warning := none, loaded := some (urlBase ++ "/blocks".toList), login := none }
        else if components.length = 2 then
          match parseBlockNum (components.getD 1 []) with
          | some n =>
              { warning := none,
                loaded := some (urlBase ++ "/blocks/".toList ++ showNat n), login := none }
          | none =>
              { warning := some UrlWarning.invalidBlockNumber, loaded := some urlBase,
                login := none }
        else { warning := none, loaded := some urlBase, login := none }
      else noUrlResult

/-- `MainWindow::processCustomUrl`: reject (log only) any URL whose text
before the first ':' does not lowercase to the custom scheme, then dispatch
on the split components. -/
def processCustomUrl (endpoint : List Char) (parseBlockNum : List Char → Option Nat)
    (showNat : Nat → List Char) (url : List Char) : UrlResult :=
  if toLowerStr (url.takeWhile (fun c => c ≠ ':')) ≠ CUSTOM_URL_SCHEME then noUrlResult
  else dispatchComponents endpoint parseBlockNum showNat (urlComponents url)

lemma dispatch_unrecognized (endpoint : List Char)
    (parseBlockNum : List Char → Option Nat) (showNat : Nat → List Char)
    (c0 : List Char) (rest : List (List Char))
    (h1 : toLowerStr c0 ≠ "home".toList)
    (h2 : toLowerStr c0 ≠ "delegates".toList)
    (h3 : toLowerStr c0 ≠ "notes".toList)
    (h4 : toLowerStr c0 ≠ "directory".toList)
    (h5 : toLowerStr c0 ≠ "newcontact".toList)
    (h6 : toLowerStr c0 ≠ "preferences".toList)
    (h7 : toLowerStr c0 ≠ "console".toList)
    (h8 : toLowerStr c0 ≠ "help".toList)
    (h9 : toLowerStr c0 ≠ "accounts".toList)
    (h10 : toLowerStr c0 ≠ "blocks".toList) :
    dispatchComponents endpoint parseBlockNum showNat (c0 :: rest) = noUrlResult := by
  simp only [dispatchComponents]
  rw [if_neg (by push_neg; exact ⟨h1, h2, h3, h4, h5, h6, h7, h8⟩), if_neg h9, if_neg h10]

/-- C8: the claimed login routing fails on the code: a scheme-correct URL
whose first component is `login` is silently ignored by the router - no
warning, no navigation, and no dispatch to `doLogin` (the `login` branch is
absent from `processCustomUrl`'s allow-list). -/
theorem C8_counterexample :
    (processCustomUrl [] (fun _ => none) (fun _ => [])
        "xts://login/serverkey/serversig/example.com/return".toList).login = none ∧
    processCustomUrl [] (fun _ => none) (fun _ => [])
        "xts://login/serverkey/serversig/example.com/return".toList = noUrlResult := by
  constructor
  · rfl
  · rfl

/-- C8 (amended): the router's allow-list contains no `login` entry: every
URL with the registered custom scheme whose first path component lowercases
to `login` produces no command and no side effect; `MainWindow::doLogin`
exists in the source but is never invoked by the router. -/
theorem C8_amended_login_ignored (endpoint : List Char)
    (parseBlockNum : List Char → Option Nat) (showNat : Nat → List Char)
    (url c0 : List Char) (rest : List (List Char))
    (hscheme : toLowerStr (url.takeWhile (fun c => c ≠ ':')) = CUSTOM_URL_SCHEME)
    (hcomps : urlComponents url = c0 :: rest)
    (hlogin : toLowerStr c0 = "login".toList) :
    processCustomUrl endpoint parseBlockNum showNat url = noUrlResult := by
  unfold processCustomUrl
  rw [if_neg (fun h => h hscheme), hcomps]
  refine dispatch_unrecognized endpoint parseBlockNum showNat c0 rest ?_ ?_ ?_ ?_ ?_ ?_ ?_ ?_ ?_ ?_
  all_goals rw [hlogin]
  all_goals decide

/-- Witness for C8 (amended) at a concrete login deep link. -/
theorem C8_amended_witness :
    processCustomUrl [] (fun _ => none) (fun _ => [])
      "xts:login/key/sig/host/path".toList = noUrlResult := by
  refine C8_amended_login_ignored [] (fun _ => none) (fun _ => [])
    "xts:login/key/sig/host/path".toList "login".toList
    ["key".toList, "sig".toList, "host".toList, "path".toList] ?_ ?_ ?_
  · decide
  · decide
  · decide

/-- The allow-list as the spec states it (the thirteen recognized first
components). -/
def specAllowList : List (List Char) :=
  ["home".toList, "accounts".toList, "blocks".toList, "delegates".toList,
   "notes".toList, "directory".toList, "newcontact".toList, "preferences".toList,
   "console".toList, "help".toList, "login".toList, "transfer".toList,
   "referral_code".toList]

/-- C9: for every URL whose scheme lowercases to the registered custom
scheme but whose first path component is not in the allow-list, the router
produces no command and no side effect: no warning dialog, no navigation,
no dispatch. -/
theorem C9_unrecognized_noop (endpoint : List Char)
    (parseBlockNum : List Char → Option Nat) (showNat : Nat → List Char)
    (url c0 : List Char) (rest : List (List Char))
    (hscheme : toLowerStr (url.takeWhile (fun c => c ≠ ':')) = CUSTOM_URL_SCHEME)
    (hcomps : urlComponents url = c0 :: rest)
    (hnotin : toLowerStr c0 ∉ specAllowList) :
    processCustomUrl endpoint parseBlockNum showNat url = noUrlResult := by
  unfold processCustomUrl
  rw [if_neg (fun h => h hscheme), hcomps]
  refine dispatch_unrecognized endpoint parseBlockNum showNat c0 rest ?_ ?_ ?_ ?_ ?_ ?_ ?_ ?_ ?_ ?_
  · exact fun hh => hnotin (by rw [hh]; decide)
  · exact fun hh => hnotin (by rw [hh]; decide)
  · exact fun hh => hnotin (by rw [hh]; decide)
  · exact fun hh => hnotin (by rw [hh]; decide)
  · exact fun hh => hnotin (by rw [hh]; decide)
  · exact fun hh => hnotin (by rw [hh]; decide)
  · exact fun hh => hnotin (by rw [hh]; decide)
  · exact fun hh => hnotin (by rw [hh]; decide)
  · exact fun hh => hnotin (by rw [hh]; decide)
  · exact fun hh => hnotin (by rw [hh]; decide)

/-- Witness for C9 at the spec's own example `xts://deleteallfunds`. -/
theorem C9_witness :
    processCustomUrl [] (fun _ => none) (fun _ => [])
      "xts://deleteallfunds".toList = noUrlResult := by
  refine C9_unrecognized_noop [] (fun _ => none) (fun _ => [])
    "xts://deleteallfunds".toList "deleteallfunds".toList [] ?_ ?_ ?_
  · decide
  · decide
  · decide
